import Mathlib

/-!
Verification of the time-expression resolution and filter-construction
pipeline of the `linctl` command-line client.

The filter composers (`buildIssueFilter` in `cmd/comment.go`, the inline
filter block of the project list command) and the per-command sort-token
normalization are embedded directly from the Go source.  The time
expression resolver `utils.ParseTimeExpression` (package `pkg/utils`) is
not part of the available source tree — only its call sites are — so it is
modelled from the specification; every definition that is modelled rather
than transcribed says so in its doc comment.

Conventions of the embedding:
- Go's `os.Exit(1)` after an error message is modelled as returning
  `Except.error`; a returned filter is `Except.ok`.
- The Go filter value `map[string]interface{}` assigns each criterion key
  at most once, so it is modelled as a structure with one `Option` field
  per criterion; `none` means the key is absent from the map.
- Wall-clock time is passed explicitly as a `DateTime` argument.
-/

namespace Linctl

/-! ## Calendar model -/

/-- A calendar date (proleptic Gregorian).  Fields are unconstrained
integers; all operations that build dates keep them in range. -/
structure Date where
  year : Int
  month : Int
  day : Int
deriving DecidableEq

/-- Gregorian leap-year rule. -/
def isLeapYear (y : Int) : Bool :=
  (y.emod 4 == 0 && y.emod 100 != 0) || y.emod 400 == 0

/-- Number of days in a month of a given year. -/
def daysInMonth (y m : Int) : Int :=
  if m = 2 then (if isLeapYear y then 29 else 28)
  else if m = 4 ∨ m = 6 ∨ m = 9 ∨ m = 11 then 30
  else 31

/-- Calendar-month subtraction: go back `n` months and clamp the day to
the last valid day of the target month (never roll over into the next
month). -/
def subMonths (d : Date) (n : Nat) : Date :=
  let total : Int := d.year * 12 + (d.month - 1) - n
  let y := Int.ediv total 12
  let m := Int.emod total 12 + 1
  ⟨y, m, min d.day (daysInMonth y m)⟩

/-- Calendar-year subtraction, clamping Feb 29 to Feb 28 on non-leap
target years. -/
def subYears (d : Date) (n : Nat) : Date :=
  let y := d.year - n
  ⟨y, d.month, min d.day (daysInMonth y d.month)⟩

/-- Days since the civil epoch 1970-01-01 (standard civil-calendar
conversion). -/
def rataDie (d : Date) : Int :=
  let y := if d.month ≤ 2 then d.year - 1 else d.year
  let era := Int.ediv y 400
  let yoe := y - era * 400
  let mp := Int.emod (d.month + 9) 12
  let doy := Int.ediv (153 * mp + 2) 5 + d.day - 1
  let doe := yoe * 365 + Int.ediv yoe 4 - Int.ediv yoe 100 + doy
  era * 146097 + doe - 719468

/-- Inverse of `rataDie`: the civil date of a day count. -/
def dateOfRataDie (z0 : Int) : Date :=
  let z := z0 + 719468
  let era := Int.ediv z 146097
  let doe := z - era * 146097
  let yoe := Int.ediv (doe - Int.ediv doe 1460 + Int.ediv doe 36524 - Int.ediv doe 146096) 365
  let y := yoe + era * 400
  let doy := doe - (365 * yoe + Int.ediv yoe 4 - Int.ediv yoe 100)
  let mp := Int.ediv (5 * doy + 2) 153
  let dd := doy - Int.ediv (153 * mp + 2) 5 + 1
  let m := if mp < 10 then mp + 3 else mp - 9
  ⟨if m ≤ 2 then y + 1 else y, m, dd⟩

/-- A wall-clock instant: a date plus the second of the day (0‥86399),
UTC. -/
structure DateTime where
  date : Date
  secondOfDay : Int
deriving DecidableEq

/-- Subtract a number of seconds, crossing day boundaries through the
day-count conversion. -/
def subSeconds (t : DateTime) (n : Int) : DateTime :=
  let total := rataDie t.date * 86400 + t.secondOfDay - n
  let days := Int.ediv total 86400
  let sod := Int.emod total 86400
  ⟨dateOfRataDie days, sod⟩

/-- The six time units of the relative-expression grammar. -/
inductive TimeUnit
  | minute
  | hour
  | day
  | week
  | month
  | year
deriving DecidableEq

/-- Subtract `n` units from an instant.  Minutes through weeks are fixed
numbers of seconds; months and years use calendar arithmetic on the date
part. -/
def subUnits (now : DateTime) (n : Nat) : TimeUnit → DateTime
  | TimeUnit.minute => subSeconds now (60 * n)
  | TimeUnit.hour => subSeconds now (3600 * n)
  | TimeUnit.day => subSeconds now (86400 * n)
  | TimeUnit.week => subSeconds now (604800 * n)
  | TimeUnit.month => ⟨subMonths now.date n, now.secondOfDay⟩
  | TimeUnit.year => ⟨subYears now.date n, now.secondOfDay⟩

/-! ## Time expression grammar -/

/-- Split a character list on underscores (each `'_'` is a separator). -/
def splitUnderscore : List Char → List (List Char)
  | [] => [[]]
  | c :: rest =>
    let r := splitUnderscore rest
    if c = '_' then [] :: r
    else
      match r with
      | [] => [[c]]
      | h :: t => (c :: h) :: t

/-- Accumulator loop of `parseNatDigits`. -/
def parseNatGo : List Char → Nat → Option Nat
  | [], acc => some acc
  | c :: rest, acc =>
    if c.isDigit then parseNatGo rest (acc * 10 + (c.toNat - 48)) else none

/-- Parse a non-empty all-digit character list as a natural number. -/
def parseNatDigits (cs : List Char) : Option Nat :=
  if cs = [] then none else parseNatGo cs 0

/-- Map a unit word (singular or plural spelling) to its `TimeUnit`. -/
def unitOfChars (u : List Char) : Option TimeUnit :=
  if u = "minute".data ∨ u = "minutes".data then some TimeUnit.minute
  else if u = "hour".data ∨ u = "hours".data then some TimeUnit.hour
  else if u = "day".data ∨ u = "days".data then some TimeUnit.day
  else if u = "week".data ∨ u = "weeks".data then some TimeUnit.week
  else if u = "month".data ∨ u = "months".data then some TimeUnit.month
  else if u = "year".data ∨ u = "years".data then some TimeUnit.year
  else none

/-- Recognize the relative pattern `N_unit_ago`, where `N` is a
non-negative integer and `unit` is a singular or plural time unit. -/
def parseRelative (expr : String) : Option (Nat × TimeUnit) :=
  match splitUnderscore expr.data with
  | [ns, us, last] =>
    if last = "ago".data then
      match parseNatDigits ns, unitOfChars us with
      | some n, some u => some (n, u)
      | _, _ => none
    else none
  | _ => none

/-- Value of a decimal digit character. -/
def digitVal (c : Char) : Option Int :=
  if c.isDigit then some ((c.toNat : Int) - 48) else none

/-- Two decimal digits as a number. -/
def twoDigits (a b : Char) : Option Int := do
  let x ← digitVal a
  let y ← digitVal b
  pure (10 * x + y)

/-- Four decimal digits as a number. -/
def fourDigits (a b c d : Char) : Option Int := do
  let x ← twoDigits a b
  let y ← twoDigits c d
  pure (100 * x + y)

/-- A date with its fields checked to be a real calendar date. -/
def mkValidDate (y m d : Int) : Option Date :=
  if 1 ≤ m ∧ m ≤ 12 ∧ 1 ≤ d ∧ d ≤ daysInMonth y m then some ⟨y, m, d⟩ else none

/-- A second-of-day from checked hour, minute and second fields. -/
def mkValidTime (h mi s : Int) : Option Int :=
  if 0 ≤ h ∧ h < 24 ∧ 0 ≤ mi ∧ mi < 60 ∧ 0 ≤ s ∧ s < 60
  then some (3600 * h + 60 * mi + s) else none

/-- Recognize an absolute ISO-8601 date `YYYY-MM-DD` (midnight UTC) or
timestamp `YYYY-MM-DDTHH:MM:SSZ`. -/
def parseISO (expr : String) : Option DateTime :=
  match expr.data with
  | [y1, y2, y3, y4, '-', m1, m2, '-', d1, d2] => do
    let y ← fourDigits y1 y2 y3 y4
    let m ← twoDigits m1 m2
    let d ← twoDigits d1 d2
    let date ← mkValidDate y m d
    pure ⟨date, 0⟩
  | [y1, y2, y3, y4, '-', m1, m2, '-', d1, d2, 'T',
     h1, h2, ':', mi1, mi2, ':', s1, s2, 'Z'] => do
    let y ← fourDigits y1 y2 y3 y4
    let m ← twoDigits m1 m2
    let d ← twoDigits d1 d2
    let date ← mkValidDate y m d
    let hh ← twoDigits h1 h2
    let mm ← twoDigits mi1 mi2
    let ss ← twoDigits s1 s2
    let sod ← mkValidTime hh mm ss
    pure ⟨date, sod⟩
  | _ => none

/-! ## Time expression resolver -/

/-- The resolver's result: defer to the caller's default, no lower bound
at all, or a concrete absolute boundary. -/
inductive ResolvedBoundary
  | useDefault
  | unbounded
  | at (t : DateTime)
deriving DecidableEq

/-- Modelled from the spec: the time-expression resolver
`utils.ParseTimeExpression` of package `pkg/utils` is not present in the
available source tree — only its call sites in `cmd/comment.go:968` and
the project list command are.  Grammar and precedence follow spec
section 4.1: empty string defers to the caller default; the literal
`all_time` is unbounded; `N_unit_ago` subtracts `N` units from `now`
(calendar arithmetic for months and years); an ISO-8601 date or
timestamp is an absolute boundary; anything else is an invalid time
expression error. -/
def resolveTimeExpression (expr : String) (now : DateTime) :
    Except String ResolvedBoundary :=
  if expr = "" then Except.ok ResolvedBoundary.useDefault
  else if expr = "all_time" then Except.ok ResolvedBoundary.unbounded
  else
    match parseRelative expr with
    | some (n, u) => Except.ok (ResolvedBoundary.at (subUnits now n u))
    | none =>
      match parseISO expr with
      | some t => Except.ok (ResolvedBoundary.at t)
      | none => Except.error ("invalid time expression: " ++ expr)

/-- Left-pad a (non-negative, below 100) number to two digits. -/
def pad2 (n : Int) : String :=
  if n < 10 then "0" ++ toString n else toString n

/-- Render an instant as an RFC 3339 timestamp string. -/
def formatDateTime (t : DateTime) : String :=
  toString t.date.year ++ "-" ++ pad2 t.date.month ++ "-" ++ pad2 t.date.day
    ++ "T" ++ pad2 (Int.ediv t.secondOfDay 3600)
    ++ ":" ++ pad2 (Int.emod (Int.ediv t.secondOfDay 60) 60)
    ++ ":" ++ pad2 (Int.emod t.secondOfDay 60) ++ "Z"

/-- The string a boundary becomes at the resolver's `(string, error)`
interface, read off from the call sites: the composers treat the empty
string as "emit no creation-time predicate" and any non-empty string as
the boundary timestamp, so `unbounded` — and the spec's use-default
sentinel, for which the interface has no other non-timestamp value —
render as the empty string, and a concrete boundary renders as its
timestamp. -/
def renderBoundary : ResolvedBoundary → String
  | ResolvedBoundary.useDefault => ""
  | ResolvedBoundary.unbounded => ""
  | ResolvedBoundary.at t => formatDateTime t

/-- The string-valued resolver as the composers call it
(`utils.ParseTimeExpression`): resolution followed by rendering at the
`(string, error)` interface. -/
def parseTimeExpression (expr : String) (now : DateTime) :
    Except String String :=
  Except.map renderBoundary (resolveTimeExpression expr now)

/-- Modelled from the spec: the resource default boundary for issues and
projects is six months before now (`policy.DefaultBoundary`). -/
def issueDefaultBoundary (now : DateTime) : DateTime :=
  subUnits now 6 TimeUnit.month

/-! ## Issue filter composer (`buildIssueFilter`, cmd/comment.go:929-980) -/

/-- The assignee criterion: `{"isMe": {"eq": true}}` or
`{"email": {"eq": value}}`. -/
inductive AssigneeFilter
  | isMe
  | emailEq (e : String)
deriving DecidableEq

/-- The issue state criterion: `{"name": {"eq": value}}` or
`{"type": {"nin": values}}`. -/
inductive StateFilter
  | nameEq (s : String)
  | typeNin (ts : List String)
deriving DecidableEq

/-- The issue filter document: one optional predicate per criterion key
of the Go `map[string]interface{}`; `none` means the key is absent. -/
structure IssueFilter where
  assignee : Option AssigneeFilter
  state : Option StateFilter
  teamKeyEq : Option String
  priorityEq : Option Int
  createdAtGte : Option String
deriving DecidableEq

/-- `buildIssueFilter` (cmd/comment.go:929-980).  Flag values are passed
explicitly; `priority` uses the `-1` "unset" sentinel; an invalid
newer-than value makes the command print an error and exit, modelled as
`Except.error`. -/
def buildIssueFilter (assignee state : String) (includeCompleted : Bool)
    (team : String) (priority : Int) (newerThan : String) (now : DateTime) :
    Except String IssueFilter :=
  let assigneeF : Option AssigneeFilter :=
    if assignee ≠ "" then
      if assignee = "me" then some AssigneeFilter.isMe
      else some (AssigneeFilter.emailEq assignee)
    else none
  let stateF : Option StateFilter :=
    if state ≠ "" then some (StateFilter.nameEq state)
    else if !includeCompleted then
      some (StateFilter.typeNin ["completed", "canceled"])
    else none
  let teamF : Option String := if team ≠ "" then some team else none
  let priorityF : Option Int := if priority ≠ -1 then some priority else none
  match parseTimeExpression newerThan now with
  | Except.error e => Except.error e
  | Except.ok createdAt =>
    Except.ok ⟨assigneeF, stateF, teamF, priorityF,
               if createdAt ≠ "" then some createdAt else none⟩

/-! ## Project filter composer (project list command, inline filter block) -/

/-- The project state criterion: `{"eq": value}` or `{"nin": values}` on
the state field itself (project states are their own category values). -/
inductive ProjectStateFilter
  | eq (s : String)
  | nin (ts : List String)
deriving DecidableEq

/-- The project filter document of the project list command. -/
structure ProjectFilter where
  teamIdEq : Option String
  state : Option ProjectStateFilter
  createdAtGte : Option String
deriving DecidableEq

/-- The inline filter construction of `projectListCmd` (lines 76-104 of
the project command file).  The team key is resolved to a team id by an
external lookup; `teamId` stands for that lookup's result and is used
only when `teamKey` is non-empty. -/
def buildProjectFilter (teamKey teamId state : String)
    (includeCompleted : Bool) (newerThan : String) (now : DateTime) :
    Except String ProjectFilter :=
  let teamF : Option String := if teamKey ≠ "" then some teamId else none
  let stateF : Option ProjectStateFilter :=
    if state ≠ "" then some (ProjectStateFilter.eq state)
    else if !includeCompleted then
      some (ProjectStateFilter.nin ["completed", "canceled"])
    else none
  match parseTimeExpression newerThan now with
  | Except.error e => Except.error e
  | Except.ok createdAt =>
    Except.ok ⟨teamF, stateF, if createdAt ≠ "" then some createdAt else none⟩

/-- The issue list command's filter construction is a call to
`buildIssueFilter` (cmd/comment.go:277). -/
def issueListBuildFilter (assignee state : String) (includeCompleted : Bool)
    (team : String) (priority : Int) (newerThan : String) (now : DateTime) :
    Except String IssueFilter :=
  buildIssueFilter assignee state includeCompleted team priority newerThan now

/-- The issue search command's filter construction is a call to
`buildIssueFilter` (cmd/comment.go:448). -/
def issueSearchBuildFilter (assignee state : String) (includeCompleted : Bool)
    (team : String) (priority : Int) (newerThan : String) (now : DateTime) :
    Except String IssueFilter :=
  buildIssueFilter assignee state includeCompleted team priority newerThan now

/-! ## Sort-token normalization (three call sites) -/

/-- The user-facing message of the sort-option error path. -/
def invalidSortMsg (sortBy : String) : String :=
  "Invalid sort option: " ++ sortBy ++ ". Valid options are: linear, created, updated"

/-- Sort normalization of the issue list command (cmd/comment.go:284-300):
`orderBy` starts empty; a non-empty token goes through the switch, whose
default arm errors and exits. -/
def normalizeSortIssueList (sortBy : String) : Except String String :=
  if sortBy ≠ "" then
    if sortBy = "created" ∨ sortBy = "createdAt" then Except.ok "createdAt"
    else if sortBy = "updated" ∨ sortBy = "updatedAt" then Except.ok "updatedAt"
    else if sortBy = "linear" then Except.ok ""
    else Except.error (invalidSortMsg sortBy)
  else Except.ok ""

/-- Sort normalization of the issue search command
(cmd/comment.go:455-468), transcribed from its own switch. -/
def normalizeSortIssueSearch (sortBy : String) : Except String String :=
  if sortBy ≠ "" then
    if sortBy = "created" ∨ sortBy = "createdAt" then Except.ok "createdAt"
    else if sortBy = "updated" ∨ sortBy = "updatedAt" then Except.ok "updatedAt"
    else if sortBy = "linear" then Except.ok ""
    else Except.error (invalidSortMsg sortBy)
  else Except.ok ""

/-- Sort normalization of the project list command (lines 106-122 of the
project command file), transcribed from its own switch. -/
def normalizeSortProjectList (sortBy : String) : Except String String :=
  if sortBy ≠ "" then
    if sortBy = "created" ∨ sortBy = "createdAt" then Except.ok "createdAt"
    else if sortBy = "updated" ∨ sortBy = "updatedAt" then Except.ok "updatedAt"
    else if sortBy = "linear" then Except.ok ""
    else Except.error (invalidSortMsg sortBy)
  else Except.ok ""

/-! ## truncateString (cmd/comment.go:999-1004) -/

/-- `truncateString` (cmd/comment.go:999-1004).  The Go byte string is
modelled as a list of characters and the Go `int` as `Int`; the slice
`s[:maxLen-3]` panics when its index is negative, modelled as `none`. -/
def truncateString (s : List Char) (maxLen : Int) : Option (List Char) :=
  if (s.length : Int) ≤ maxLen then some s
  else if 0 ≤ maxLen - 3 then
    some (s.take (maxLen - 3).toNat ++ ['.', '.', '.'])
  else none

/-! ## Statement vocabulary -/

/-- The creation-time predicate a resolved boundary gives rise to: a
"created at or after" bound for a concrete boundary, nothing otherwise. -/
def creationTimePred : ResolvedBoundary → Option String
  | ResolvedBoundary.at t => some (formatDateTime t)
  | _ => none

/-- Whether a resolved boundary is a concrete timestamp. -/
def isConcreteBoundary : ResolvedBoundary → Prop
  | ResolvedBoundary.at _ => True
  | _ => False

/-! ## Helper lemmas -/

/-- A rendered timestamp is never the empty string. -/
theorem formatDateTime_ne_empty (t : DateTime) : formatDateTime t ≠ "" := by
  intro h
  have hl : (formatDateTime t).length = 0 := by rw [h]; rfl
  unfold formatDateTime at hl
  rw [String.length_append] at hl
  have hz : ("Z" : String).length = 1 := rfl
  omega

/-- The string interface of the resolver on a successful resolution. -/
theorem parseTime_of_resolve (e : String) (now : DateTime)
    (b : ResolvedBoundary) (h : resolveTimeExpression e now = Except.ok b) :
    parseTimeExpression e now = Except.ok (renderBoundary b) := by
  simp [parseTimeExpression, h, Except.map]

/-- C1: if the resolved boundary is unbounded (e.g. the input is
`all_time`), the composed filter — for issues and for projects — contains
no creation-time predicate; a "created at or after" predicate appears
exactly when the resolved boundary is a concrete timestamp. -/
theorem creation_pred_iff_concrete_boundary
    (a s : String) (ic : Bool) (tm : String) (p : Int)
    (tk tid ps : String) (pic : Bool) (e : String) (now : DateTime)
    (b : ResolvedBoundary) (f : IssueFilter) (g : ProjectFilter)
    (hres : resolveTimeExpression e now = Except.ok b)
    (hf : buildIssueFilter a s ic tm p e now = Except.ok f)
    (hg : buildProjectFilter tk tid ps pic e now = Except.ok g) :
    f.createdAtGte = creationTimePred b
    ∧ g.createdAtGte = creationTimePred b
    ∧ (f.createdAtGte ≠ none ↔ isConcreteBoundary b) := by
  have hp := parseTime_of_resolve e now b hres
  unfold buildIssueFilter at hf
  unfold buildProjectFilter at hg
  rw [hp] at hf hg
  simp only [Except.ok.injEq] at hf hg
  subst hf
  subst hg
  cases b with
  | useDefault => simp [renderBoundary, creationTimePred, isConcreteBoundary]
  | unbounded => simp [renderBoundary, creationTimePred, isConcreteBoundary]
  | «at» t =>
    simp [renderBoundary, creationTimePred, isConcreteBoundary,
      formatDateTime_ne_empty t]

/-- Witness for C1 at the `all_time` scenario. -/
theorem creation_pred_iff_concrete_boundary_witness :
    resolveTimeExpression "all_time" ⟨⟨2025, 3, 31⟩, 0⟩ =
      Except.ok ResolvedBoundary.unbounded
    ∧ buildIssueFilter "" "" false "" (-1) "all_time" ⟨⟨2025, 3, 31⟩, 0⟩ =
        Except.ok ⟨none, some (StateFilter.typeNin ["completed", "canceled"]),
                   none, none, none⟩
    ∧ buildProjectFilter "" "" "" false "all_time" ⟨⟨2025, 3, 31⟩, 0⟩ =
        Except.ok ⟨none, some (ProjectStateFilter.nin ["completed", "canceled"]),
                   none⟩
    ∧ (IssueFilter.mk none (some (StateFilter.typeNin ["completed", "canceled"]))
        none none none).createdAtGte = creationTimePred ResolvedBoundary.unbounded
    ∧ (ProjectFilter.mk none
        (some (ProjectStateFilter.nin ["completed", "canceled"]))
        none).createdAtGte = creationTimePred ResolvedBoundary.unbounded :=
  ⟨rfl, rfl, rfl,
   (creation_pred_iff_concrete_boundary "" "" false "" (-1) "" "" "" false
     "all_time" ⟨⟨2025, 3, 31⟩, 0⟩ ResolvedBoundary.unbounded _ _
     rfl rfl rfl).1,
   (creation_pred_iff_concrete_boundary "" "" false "" (-1) "" "" "" false
     "all_time" ⟨⟨2025, 3, 31⟩, 0⟩ ResolvedBoundary.unbounded _ _
     rfl rfl rfl).2.1⟩

/-- C2: a non-empty explicit state value yields an exact-match state
predicate and never the default completed/canceled exclusion, for any
value of the include-completed flag, in the issue and project
composers. -/
theorem explicit_state_overrides_default_exclusion
    (a s : String) (ic : Bool) (tm : String) (p : Int)
    (tk tid : String) (nt : String) (now : DateTime)
    (f : IssueFilter) (g : ProjectFilter)
    (hs : s ≠ "")
    (hf : buildIssueFilter a s ic tm p nt now = Except.ok f)
    (hg : buildProjectFilter tk tid s ic nt now = Except.ok g) :
    f.state = some (StateFilter.nameEq s)
    ∧ f.state ≠ some (StateFilter.typeNin ["completed", "canceled"])
    ∧ g.state = some (ProjectStateFilter.eq s)
    ∧ g.state ≠ some (ProjectStateFilter.nin ["completed", "canceled"]) := by
  unfold buildIssueFilter at hf
  unfold buildProjectFilter at hg
  cases hpt : parseTimeExpression nt now with
  | error msg => rw [hpt] at hf; cases hf
  | ok c =>
    rw [hpt] at hf hg
    simp only [Except.ok.injEq] at hf hg
    subst hf
    subst hg
    simp [hs]

/-- Witness for C2: explicit state `Todo` with include-completed false. -/
theorem explicit_state_overrides_default_exclusion_witness :
    ("Todo" : String) ≠ ""
    ∧ buildIssueFilter "" "Todo" false "" (-1) "" ⟨⟨2025, 3, 31⟩, 0⟩ =
        Except.ok ⟨none, some (StateFilter.nameEq "Todo"), none, none, none⟩
    ∧ buildProjectFilter "" "" "Todo" false "" ⟨⟨2025, 3, 31⟩, 0⟩ =
        Except.ok ⟨none, some (ProjectStateFilter.eq "Todo"), none⟩
    ∧ (IssueFilter.mk none (some (StateFilter.nameEq "Todo")) none none
        none).state = some (StateFilter.nameEq "Todo")
    ∧ (ProjectFilter.mk none (some (ProjectStateFilter.eq "Todo"))
        none).state ≠ some (ProjectStateFilter.nin ["completed", "canceled"]) :=
  ⟨by decide, rfl, rfl,
   (explicit_state_overrides_default_exclusion "" "Todo" false "" (-1) "" ""
     "" ⟨⟨2025, 3, 31⟩, 0⟩ _ _ (by decide) rfl rfl).1,
   (explicit_state_overrides_default_exclusion "" "Todo" false "" (-1) "" ""
     "" ⟨⟨2025, 3, 31⟩, 0⟩ _ _ (by decide) rfl rfl).2.2.2⟩

/-- C3: with no explicit state, the include-completed flag decides the
state predicate: flag set means no state predicate at all, flag unset
means exactly the completed/canceled exclusion, in both composers. -/
theorem default_state_exclusion_policy
    (a : String) (ic : Bool) (tm : String) (p : Int)
    (tk tid : String) (nt : String) (now : DateTime)
    (f : IssueFilter) (g : ProjectFilter)
    (hf : buildIssueFilter a "" ic tm p nt now = Except.ok f)
    (hg : buildProjectFilter tk tid "" ic nt now = Except.ok g) :
    f.state = (if ic then none
               else some (StateFilter.typeNin ["completed", "canceled"]))
    ∧ g.state = (if ic then none
                 else some (ProjectStateFilter.nin ["completed", "canceled"])) := by
  unfold buildIssueFilter at hf
  unfold buildProjectFilter at hg
  cases hpt : parseTimeExpression nt now with
  | error msg => rw [hpt] at hf; cases hf
  | ok c =>
    rw [hpt] at hf hg
    simp only [Except.ok.injEq] at hf hg
    subst hf
    subst hg
    cases ic <;> simp

/-- Witness for C3 at both values of the include-completed flag. -/
theorem default_state_exclusion_policy_witness :
    buildIssueFilter "" "" true "" (-1) "" ⟨⟨2025, 3, 31⟩, 0⟩ =
      Except.ok ⟨none, none, none, none, none⟩
    ∧ buildProjectFilter "" "" "" true "" ⟨⟨2025, 3, 31⟩, 0⟩ =
        Except.ok ⟨none, none, none⟩
    ∧ (IssueFilter.mk none none none none none).state =
        (if true then none
         else some (StateFilter.typeNin ["completed", "canceled"]))
    ∧ (ProjectFilter.mk none none none).state =
        (if true then none
         else some (ProjectStateFilter.nin ["completed", "canceled"])) :=
  ⟨rfl, rfl,
   (default_state_exclusion_policy "" true "" (-1) "" "" ""
     ⟨⟨2025, 3, 31⟩, 0⟩ _ _ rfl rfl).1,
   (default_state_exclusion_policy "" true "" (-1) "" "" ""
     ⟨⟨2025, 3, 31⟩, 0⟩ _ _ rfl rfl).2⟩

/-- C4 counterexample: the composer has no branch for the literal token
`unassigned` — there is no "assignee is absent" predicate shape in
`buildIssueFilter` at all — so the input `unassigned` falls through to
the exact-match-on-email arm and becomes an email-equality predicate
carrying the literal string `unassigned`. -/
theorem assignee_unassigned_counterexample :
    buildIssueFilter "unassigned" "" true "" (-1) "" ⟨⟨2025, 3, 31⟩, 0⟩ =
      Except.ok ⟨some (AssigneeFilter.emailEq "unassigned"), none, none, none,
                 none⟩
    ∧ AssigneeFilter.emailEq "unassigned" ≠ AssigneeFilter.isMe := by
  exact ⟨rfl, by decide⟩

/-- C4 amended: `me` yields the current-viewer predicate, any other
non-empty assignee input — including the literal `unassigned` — yields an
exact-match predicate on email, and an empty input yields no assignee
predicate. -/
theorem assignee_predicate_cases
    (a s : String) (ic : Bool) (tm : String) (p : Int) (nt : String)
    (now : DateTime) (f : IssueFilter)
    (hf : buildIssueFilter a s ic tm p nt now = Except.ok f) :
    (a = "" → f.assignee = none)
    ∧ (a = "me" → f.assignee = some AssigneeFilter.isMe)
    ∧ (a ≠ "" → a ≠ "me" → f.assignee = some (AssigneeFilter.emailEq a)) := by
  unfold buildIssueFilter at hf
  cases hpt : parseTimeExpression nt now with
  | error msg => rw [hpt] at hf; cases hf
  | ok c =>
    rw [hpt] at hf
    simp only [Except.ok.injEq] at hf
    subst hf
    refine ⟨fun h => ?_, fun h => ?_, fun h1 h2 => ?_⟩
    · simp [h]
    · subst h; rfl
    · simp [h1, h2]

/-- Witness for C4 amended at the inputs `me`, `unassigned` and the
empty string. -/
theorem assignee_predicate_cases_witness :
    buildIssueFilter "me" "" true "" (-1) "" ⟨⟨2025, 3, 31⟩, 0⟩ =
      Except.ok ⟨some AssigneeFilter.isMe, none, none, none, none⟩
    ∧ (IssueFilter.mk (some AssigneeFilter.isMe) none none none
        none).assignee = some AssigneeFilter.isMe
    ∧ (IssueFilter.mk (some (AssigneeFilter.emailEq "unassigned")) none none
        none none).assignee = some (AssigneeFilter.emailEq "unassigned")
    ∧ (IssueFilter.mk none none none none none).assignee = none :=
  ⟨rfl,
   (assignee_predicate_cases "me" "" true "" (-1) "" ⟨⟨2025, 3, 31⟩, 0⟩ _
     rfl).2.1 rfl,
   (assignee_predicate_cases "unassigned" "" true "" (-1) ""
     ⟨⟨2025, 3, 31⟩, 0⟩ _ rfl).2.2 (by decide) (by decide),
   (assignee_predicate_cases "" "" true "" (-1) "" ⟨⟨2025, 3, 31⟩, 0⟩ _
     rfl).1 rfl⟩

/-- C5: an unrecognized time expression (e.g. `not_a_time`) makes the
resolver fail with an invalid-time-expression error, and the composers
abort with that same error producing no filter at all; only the empty
expression resolves to the use-default sentinel, and no non-empty
expression ever does. -/
theorem invalid_time_expression_fails_fast
    (a s : String) (ic : Bool) (tm : String) (p : Int)
    (tk tid ps : String) (pic : Bool)
    (e msg : String) (now : DateTime)
    (he : parseTimeExpression e now = Except.error msg) :
    buildIssueFilter a s ic tm p e now = Except.error msg
    ∧ buildProjectFilter tk tid ps pic e now = Except.error msg
    ∧ (∀ now2, resolveTimeExpression "not_a_time" now2 =
        Except.error "invalid time expression: not_a_time")
    ∧ (∀ now2, resolveTimeExpression "" now2 =
        Except.ok ResolvedBoundary.useDefault)
    ∧ (∀ e2 now2, e2 ≠ "" →
        resolveTimeExpression e2 now2 ≠ Except.ok ResolvedBoundary.useDefault) := by
  refine ⟨?_, ?_, fun now2 => rfl, fun now2 => rfl, ?_⟩
  · simp [buildIssueFilter, he]
  · simp [buildProjectFilter, he]
  · intro e2 now2 hne
    unfold resolveTimeExpression
    rw [if_neg hne]
    by_cases hA : e2 = "all_time"
    · rw [if_pos hA]; simp
    · rw [if_neg hA]
      cases hR : parseRelative e2 with
      | some nu => simp [hR]
      | none =>
        cases hI : parseISO e2 with
        | some t => simp [hR, hI]
        | none => simp [hR, hI]

/-- Witness for C5 at the input `not_a_time`. -/
theorem invalid_time_expression_fails_fast_witness :
    parseTimeExpression "not_a_time" ⟨⟨2025, 3, 31⟩, 0⟩ =
      Except.error "invalid time expression: not_a_time"
    ∧ buildIssueFilter "" "" false "" (-1) "not_a_time" ⟨⟨2025, 3, 31⟩, 0⟩ =
        Except.error "invalid time expression: not_a_time"
    ∧ buildProjectFilter "" "" "" false "not_a_time" ⟨⟨2025, 3, 31⟩, 0⟩ =
        Except.error "invalid time expression: not_a_time"
    ∧ resolveTimeExpression "" ⟨⟨2025, 3, 31⟩, 0⟩ =
        Except.ok ResolvedBoundary.useDefault
    ∧ resolveTimeExpression "not_a_time" ⟨⟨2025, 3, 31⟩, 0⟩ ≠
        Except.ok ResolvedBoundary.useDefault :=
  ⟨rfl,
   (invalid_time_expression_fails_fast "" "" false "" (-1) "" "" "" false
     "not_a_time" "invalid time expression: not_a_time"
     ⟨⟨2025, 3, 31⟩, 0⟩ rfl).1,
   (invalid_time_expression_fails_fast "" "" false "" (-1) "" "" "" false
     "not_a_time" "invalid time expression: not_a_time"
     ⟨⟨2025, 3, 31⟩, 0⟩ rfl).2.1,
   (invalid_time_expression_fails_fast "" "" false "" (-1) "" "" "" false
     "not_a_time" "invalid time expression: not_a_time"
     ⟨⟨2025, 3, 31⟩, 0⟩ rfl).2.2.2.1 ⟨⟨2025, 3, 31⟩, 0⟩,
   (invalid_time_expression_fails_fast "" "" false "" (-1) "" "" "" false
     "not_a_time" "invalid time expression: not_a_time"
     ⟨⟨2025, 3, 31⟩, 0⟩ rfl).2.2.2.2 "not_a_time" ⟨⟨2025, 3, 31⟩, 0⟩
     (by decide)⟩

/-- C6 counterexample: the sort switch accepts the token `createdAt` —
a non-empty token distinct from `linear`, `created` and `updated` — and
maps it successfully instead of failing, so the normalization accepts
five tokens, not exactly three. -/
theorem sort_createdAt_token_counterexample :
    normalizeSortIssueList "createdAt" = Except.ok "createdAt"
    ∧ ("createdAt" : String) ≠ "linear"
    ∧ ("createdAt" : String) ≠ "created"
    ∧ ("createdAt" : String) ≠ "updated"
    ∧ ("createdAt" : String) ≠ "" :=
  ⟨rfl, by decide, by decide, by decide, by decide⟩

/-- C6 amended: the normalization (identical at all three call sites)
accepts exactly the tokens `linear`, `created`, `createdAt`, `updated`
and `updatedAt`: `linear` and the empty token give no explicit order,
`created`/`createdAt` give the created-at field, `updated`/`updatedAt`
give the updated-at field, and every other non-empty token fails with
the invalid-sort-option error. -/
theorem sort_normalization_accepted_tokens
    (s : String)
    (hs : s ∉ (["", "linear", "created", "createdAt", "updated",
                "updatedAt"] : List String)) :
    normalizeSortIssueList s = Except.error (invalidSortMsg s)
    ∧ normalizeSortIssueSearch s = Except.error (invalidSortMsg s)
    ∧ normalizeSortProjectList s = Except.error (invalidSortMsg s)
    ∧ normalizeSortIssueList "" = Except.ok ""
    ∧ normalizeSortIssueList "linear" = Except.ok ""
    ∧ normalizeSortIssueList "created" = Except.ok "createdAt"
    ∧ normalizeSortIssueList "createdAt" = Except.ok "createdAt"
    ∧ normalizeSortIssueList "updated" = Except.ok "updatedAt"
    ∧ normalizeSortIssueList "updatedAt" = Except.ok "updatedAt" := by
  simp only [List.mem_cons, List.mem_singleton, not_or] at hs
  obtain ⟨h1, h2, h3, h4, h5, h6, -⟩ := hs
  refine ⟨?_, ?_, ?_, rfl, rfl, rfl, rfl, rfl, rfl⟩
  · simp [normalizeSortIssueList, h1, h2, h3, h4, h5, h6]
  · simp [normalizeSortIssueSearch, h1, h2, h3, h4, h5, h6]
  · simp [normalizeSortProjectList, h1, h2, h3, h4, h5, h6]

/-- Witness for C6 amended at the rejected token `priority`. -/
theorem sort_normalization_accepted_tokens_witness :
    ("priority" : String) ∉ (["", "linear", "created", "createdAt",
                              "updated", "updatedAt"] : List String)
    ∧ normalizeSortIssueList "priority" =
        Except.error (invalidSortMsg "priority")
    ∧ normalizeSortProjectList "priority" =
        Except.error (invalidSortMsg "priority") :=
  ⟨by decide,
   (sort_normalization_accepted_tokens "priority" (by decide)).1,
   (sort_normalization_accepted_tokens "priority" (by decide)).2.2.1⟩

/-- C7 counterexample: at the empty time expression the resolver (as the
spec describes it) reports the use-default sentinel, yet the composed
issue and project filters contain no creation-time predicate at all —
not the six-months-before-now default boundary the claim says the
composer substitutes.  The composers have no substitution branch: they
only test the resolver's string against the empty string. -/
theorem empty_time_composer_default_counterexample :
    resolveTimeExpression "" ⟨⟨2025, 3, 31⟩, 0⟩ =
      Except.ok ResolvedBoundary.useDefault
    ∧ Except.map IssueFilter.createdAtGte
        (buildIssueFilter "" "" false "" (-1) "" ⟨⟨2025, 3, 31⟩, 0⟩) =
        Except.ok none
    ∧ Except.map ProjectFilter.createdAtGte
        (buildProjectFilter "" "" "" false "" ⟨⟨2025, 3, 31⟩, 0⟩) =
        Except.ok none
    ∧ (some (formatDateTime (issueDefaultBoundary ⟨⟨2025, 3, 31⟩, 0⟩)) :
        Option String) ≠ none :=
  ⟨rfl, rfl, rfl, by simp⟩

/-- C7 amended: the resolver returns the use-default sentinel for the
empty expression (never a concrete timestamp), but the composer performs
no default substitution at all: it copies the resolver's output into the
creation-time predicate verbatim when that output is non-empty and omits
the predicate otherwise, so a resource default boundary can only come
from the resolver itself. -/
theorem composer_no_default_substitution
    (a s : String) (ic : Bool) (tm : String) (p : Int)
    (tk tid ps : String) (pic : Bool) (nt c : String) (now : DateTime)
    (f : IssueFilter) (g : ProjectFilter)
    (hc : parseTimeExpression nt now = Except.ok c)
    (hf : buildIssueFilter a s ic tm p nt now = Except.ok f)
    (hg : buildProjectFilter tk tid ps pic nt now = Except.ok g) :
    resolveTimeExpression "" now = Except.ok ResolvedBoundary.useDefault
    ∧ f.createdAtGte = (if c ≠ "" then some c else none)
    ∧ g.createdAtGte = (if c ≠ "" then some c else none) := by
  unfold buildIssueFilter at hf
  unfold buildProjectFilter at hg
  rw [hc] at hf hg
  simp only [Except.ok.injEq] at hf hg
  subst hf
  subst hg
  exact ⟨rfl, rfl, rfl⟩

/-- Witness for C7 amended at the concrete expression `2025-07-01`. -/
theorem composer_no_default_substitution_witness :
    parseTimeExpression "2025-07-01" ⟨⟨2025, 3, 31⟩, 0⟩ =
      Except.ok (formatDateTime ⟨⟨2025, 7, 1⟩, 0⟩)
    ∧ buildIssueFilter "" "" true "" (-1) "2025-07-01" ⟨⟨2025, 3, 31⟩, 0⟩ =
        Except.ok ⟨none, none, none, none,
                   some (formatDateTime ⟨⟨2025, 7, 1⟩, 0⟩)⟩
    ∧ (IssueFilter.mk none none none none
        (some (formatDateTime ⟨⟨2025, 7, 1⟩, 0⟩))).createdAtGte =
        (if formatDateTime ⟨⟨2025, 7, 1⟩, 0⟩ ≠ "" then
           some (formatDateTime ⟨⟨2025, 7, 1⟩, 0⟩)
         else none) :=
  ⟨rfl, rfl,
   (composer_no_default_substitution "" "" true "" (-1) "" "" "" false
     "2025-07-01" (formatDateTime ⟨⟨2025, 7, 1⟩, 0⟩) ⟨⟨2025, 3, 31⟩, 0⟩ _ _
     rfl rfl rfl).2.1⟩

/-- C8: month subtraction is calendar-correct: resolving `1_month_ago`
on March 31, 2025 gives the last valid day of February 2025 (the 28th),
not a rolled-over March date; and in general the day of an `n`-month
subtraction never exceeds the length of the target month. -/
theorem month_subtraction_calendar_correct :
    resolveTimeExpression "1_month_ago" ⟨⟨2025, 3, 31⟩, 0⟩ =
      Except.ok (ResolvedBoundary.at ⟨⟨2025, 2, 28⟩, 0⟩)
    ∧ ∀ (d : Date) (n : Nat),
        (subMonths d n).day ≤
          daysInMonth (subMonths d n).year (subMonths d n).month := by
  refine ⟨rfl, fun d n => ?_⟩
  exact min_le_right _ _

/-- C9: the sort-token normalization and the newer-than filter
construction behave identically in the issue list, issue search and
project list commands: the three sort normalizations agree on every
token, the two issue commands build their filter through the same
function, and the issue and project composers produce the same
creation-time predicate (or the same error) for every time expression. -/
theorem sort_and_newerthan_uniform_across_commands :
    (∀ sortBy : String,
        normalizeSortIssueList sortBy = normalizeSortIssueSearch sortBy
        ∧ normalizeSortIssueList sortBy = normalizeSortProjectList sortBy)
    ∧ (∀ (a s : String) (ic : Bool) (tm : String) (p : Int) (nt : String)
         (now : DateTime),
        issueListBuildFilter a s ic tm p nt now =
          issueSearchBuildFilter a s ic tm p nt now)
    ∧ (∀ (a s : String) (ic : Bool) (tm : String) (p : Int)
         (tk tid ps : String) (pic : Bool) (nt : String) (now : DateTime),
        Except.map IssueFilter.createdAtGte
            (buildIssueFilter a s ic tm p nt now)
          = Except.map ProjectFilter.createdAtGte
              (buildProjectFilter tk tid ps pic nt now)) := by
  refine ⟨fun sortBy => ⟨rfl, rfl⟩, fun a s ic tm p nt now => rfl, ?_⟩
  intro a s ic tm p tk tid ps pic nt now
  cases h : parseTimeExpression nt now with
  | error msg => simp [buildIssueFilter, buildProjectFilter, h, Except.map]
  | ok c => simp [buildIssueFilter, buildProjectFilter, h, Except.map]

/-- C10: `truncateString` returns its input unchanged when it fits in
`maxLen`; when the input is longer and `maxLen ≥ 3` it returns the first
`maxLen - 3` characters followed by `...`, of length exactly `maxLen`;
when the input is longer and `maxLen < 3` the slice index `maxLen - 3`
is negative and the function panics (modelled as `none`), so it is
panic-free exactly under the claimed precondition. -/
theorem truncateString_spec (s : List Char) (maxLen : Int) :
    ((s.length : Int) ≤ maxLen → truncateString s maxLen = some s)
    ∧ (maxLen < (s.length : Int) → 3 ≤ maxLen →
        truncateString s maxLen =
          some (s.take (maxLen - 3).toNat ++ ['.', '.', '.'])
        ∧ ((s.take (maxLen - 3).toNat ++ ['.', '.', '.']).length : Int) =
            maxLen)
    ∧ (maxLen < (s.length : Int) → maxLen < 3 →
        truncateString s maxLen = none) := by
  refine ⟨fun h => ?_, fun h1 h2 => ⟨?_, ?_⟩, fun h1 h2 => ?_⟩
  · simp [truncateString, h]
  · rw [truncateString, if_neg (by omega), if_pos (by omega)]
  · simp only [List.length_append, List.length_take]
    simp only [List.length_cons, List.length_nil]
    omega
  · rw [truncateString, if_neg (by omega), if_neg (by omega)]

/-- Witness for C10 on an eight-character string with `maxLen` 5, 2 and
a fitting case. -/
theorem truncateString_spec_witness :
    truncateString "abcdefgh".data 5 =
      some ("abcdefgh".data.take ((5 : Int) - 3).toNat ++ ['.', '.', '.'])
    ∧ (("abcdefgh".data.take ((5 : Int) - 3).toNat ++
        ['.', '.', '.']).length : Int) = 5
    ∧ truncateString "abcdefgh".data 2 = none
    ∧ truncateString "ab".data 5 = some "ab".data :=
  ⟨((truncateString_spec "abcdefgh".data 5).2.1 (by decide) (by decide)).1,
   ((truncateString_spec "abcdefgh".data 5).2.1 (by decide) (by decide)).2,
   (truncateString_spec "abcdefgh".data 2).2.2 (by decide) (by decide),
   (truncateString_spec "ab".data 5).1 (by decide)⟩

end Linctl
